import Mathlib

/-!
# BrightRoots — verification of the auth/session-bootstrap flow

Shallow embedding of the authentication context of the BrightRoots
single-page application (`src/contexts/AuthContext.tsx`, primary revision:
the head document of the file) together with the route guards
(`App.tsx` / the unnamed routing module).

External collaborators (the hosted auth service, the provider-record
storage, the browser local storage) are modelled as oracles: the results
of each external call made during one resolution are fields of an
environment record, and the embedded functions are deterministic
functions of that environment and of the local state.  JavaScript
truthiness (`x || d`, `x && y`) is embedded explicitly where the source
relies on it.
-/

namespace BrightRoots

/-- JavaScript `o?.f || d` on an optional string: `none`, and the empty
string (falsy), fall back to the default. Mirrors e.g.
`user_metadata?.role || 'parent'` (AuthContext.tsx line 133). -/
def jsOr (o : Option String) (d : String) : String :=
  match o with
  | none => d
  | some s => if s = "" then d else s

/-- JavaScript `x || undefined` on an optional string: the empty string is
falsy and becomes `undefined`. Mirrors `provider.whatsapp || undefined`
(AuthContext.tsx line 153). -/
def jsOrUndef (o : Option String) : Option String :=
  match o with
  | none => none
  | some s => if s = "" then none else some s

/-- JavaScript truthiness of an optional number: `null`/`undefined` and `0`
are falsy. Mirrors `provider.latitude && provider.longitude`
(AuthContext.tsx line 160). -/
def numTruthy (o : Option Int) : Bool :=
  match o with
  | none => false
  | some v => v != 0

/-- `msg.includes(pat)` on JavaScript strings: substring containment. -/
def strIncludes (s pat : String) : Bool :=
  decide (pat.data <:+: s.data)

/-- The session-invalidity test of AuthContext.tsx lines 117–119 and
236–239: the error message names an invalid refresh token, a missing
refresh token, or a missing auth session. -/
def sessionInvalidMsg (msg : String) : Bool :=
  strIncludes msg "Invalid Refresh Token" ||
  strIncludes msg "Refresh Token Not Found" ||
  strIncludes msg "Auth session missing"

/-- Coordinates object built at AuthContext.tsx lines 160–163. -/
structure Coordinates where
  lat : Int
  lng : Int
deriving Repr, DecidableEq

/-- The `User['location']` shape (city/area/pincode plus optional
coordinates), as constructed at AuthContext.tsx lines 156–164. -/
structure Location where
  city : String
  area : String
  pincode : String
  coordinates : Option Coordinates
deriving Repr, DecidableEq

/-- A child entry of a parent user (name/age/interests), as in the demo
users of the source. -/
structure Child where
  name : String
  age : Nat
  interests : List String
deriving Repr, DecidableEq

/-- The local `User` view model, with exactly the fields the source
assigns when it constructs user objects (AuthContext.tsx lines 145–165,
219–226, 250–257, 261–268).  Fields a given construction site omits are
`none` (JavaScript `undefined`).  `role` is a plain string because it is
copied from the free-form session metadata without validation. -/
structure User where
  _id : String
  id : Option String
  name : String
  email : String
  phone : Option String
  role : String
  businessName : Option String
  whatsapp : Option String
  website : Option String
  isVerified : Option Bool
  location : Option Location
  children : Option (List Child)
deriving Repr, DecidableEq

/-- A provider record row as read from provider storage
(fields consumed at AuthContext.tsx lines 145–165). -/
structure ProviderRecord where
  owner_name : String
  email : String
  phone : String
  business_name : String
  whatsapp : Option String
  website : Option String
  is_verified : Bool
  city : String
  area : String
  pincode : String
  latitude : Option Int
  longitude : Option Int
deriving Repr, DecidableEq

/-- The fields of the authenticated identity that the resolver consumes:
the free-form metadata map's `role` and `name`, and the account email. -/
structure SessUser where
  meta_role : Option String
  meta_name : Option String
  email : Option String
deriving Repr, DecidableEq

/-- A value found under the `demoUser` local-storage key: either it parses
as JSON (yielding a user value) or parsing throws. -/
inductive DemoEntry where
  | valid (u : User)
  | invalid
deriving Repr, DecidableEq

/-- The local-storage keys the auth context touches. -/
structure Storage where
  demoUser : Option DemoEntry
  adminAuth : Option String
  adminUser : Option String
deriving Repr, DecidableEq

/-- The mutable state of the auth context: the resolved user, the loading
flag, the raw session identity, the browser storage, and the pending
`window.location` redirect if one was issued. -/
structure AuthState where
  user : Option User
  isLoading : Bool
  supabaseUserId : Option String
  storage : Storage
  redirect : Option String
deriving Repr, DecidableEq

/-- Result of `ProviderService.getProviderByUserId` (AuthContext.tsx
line 141): a record, `null` (no row), or a thrown error. -/
inductive LookupRes where
  | found (p : ProviderRecord)
  | notFound
  | err (msg : String)
deriving Repr, DecidableEq

/-- Result of the second `supabase.auth.getUser()` call made in the catch
block (AuthContext.tsx line 247): the call itself may throw, or return a
possibly-null user together with a possibly-null error. -/
inductive FallbackRes where
  | throws
  | ok (u : Option SessUser) (err : Option String)
deriving Repr, DecidableEq

/-- The outcomes of the external calls one run of `loadUserProfile` can
make. `configured` models the environment-variable check (line 101);
`getUserError`/`getUserUser` the first `supabase.auth.getUser()`
(line 111); `providerLookup` the provider-record lookup (line 141);
`profileCheckErrCode` the error code of the users-table existence check
(lines 185–189); `fallbackGetUser` the catch-block `getUser` (line 247);
`signOutError` a rejection of `supabase.auth.signOut()` inside `logout`. -/
structure Env where
  configured : Bool
  getUserError : Option String
  getUserUser : Option SessUser
  providerLookup : LookupRes
  profileCheckErrCode : Option String
  fallbackGetUser : FallbackRes
  signOutError : Option String
deriving Repr, DecidableEq

/-- `logout` (AuthContext.tsx lines 362–375): remove the `demoUser`,
`adminAuth` and `adminUser` keys, set the user to `null`, then call the
backend sign-out; on success redirect to `/`, and if the sign-out call
rejects the rejection propagates (second component). The clearing happens
before the backend call in the source, so it is unconditional here. -/
def logout (st : AuthState) (signOutError : Option String) :
    AuthState × Option String :=
  let st1 : AuthState :=
    { st with
      storage := { demoUser := none, adminAuth := none, adminUser := none },
      user := none }
  match signOutError with
  | some m => (st1, some m)
  | none => ({ st1 with redirect := some "/" }, none)

/-- The provider-shaped user built at AuthContext.tsx lines 145–165 from a
provider record. -/
def providerToUser (userId : String) (p : ProviderRecord) : User :=
  { _id := userId
    id := some userId
    name := p.owner_name
    email := p.email
    phone := some p.phone
    role := "provider"
    businessName := some p.business_name
    whatsapp := jsOrUndef p.whatsapp
    website := jsOrUndef p.website
    isVerified := some p.is_verified
    location := some
      { city := p.city
        area := p.area
        pincode := p.pincode
        coordinates :=
          if numTruthy p.latitude && numTruthy p.longitude then
            some { lat := p.latitude.getD 0, lng := p.longitude.getD 0 }
          else none }
    children := none }

/-- The metadata-derived user built at AuthContext.tsx lines 219–226
(and, with the same shape, at lines 250–257). -/
def newUserFrom (userId : String) (su : SessUser) (role : String) : User :=
  { _id := userId
    id := some userId
    name := jsOr su.meta_name "User"
    email := jsOr su.email ""
    phone := none
    role := role
    businessName := none
    whatsapp := none
    website := none
    isVerified := none
    location := none
    children := some [] }

/-- The last-resort placeholder user of AuthContext.tsx lines 261–268
(repeated verbatim at lines 272–279). -/
def lastResortUser (userId : String) : User :=
  { _id := userId
    id := some userId
    name := "User"
    email := ""
    phone := none
    role := "parent"
    businessName := none
    whatsapp := none
    website := none
    isVerified := none
    location := none
    children := some [] }

/-- The observable outcome of one `loadUserProfile` run: the final state
(after the `finally` block), whether `logout` was invoked, whether the
provider-record lookup was performed, whether a parent-profile insert was
attempted, and the error the run itself rejects with, if any. -/
structure LoadResult where
  state : AuthState
  logoutInvoked : Bool
  providerQueried : Bool
  parentInsertAttempted : Bool
  propagated : Option String
deriving Repr, DecidableEq

/-- The catch block of `loadUserProfile` (AuthContext.tsx lines 232–280),
followed by the `finally` (lines 281–283).  `msg` is the message of the
caught error; `logoutAlready` records whether `logout` was already invoked
earlier in this run (its own rejection being the caught error);
`pq`/`ia` carry the provider-queried and insert-attempted flags.  A
session-invalidity message triggers `logout` (line 241); if that `logout`
itself rejects, the rejection propagates out of the function (after the
`finally`).  Otherwise a fallback user is built from a second `getUser`
call (lines 246–269), and any throw there yields the emergency user
(lines 270–280). -/
def loadCatch (env : Env) (userId : String) (st : AuthState) (msg : String)
    (logoutAlready : Bool) (pq : Bool) (ia : Bool) : LoadResult :=
  if sessionInvalidMsg msg then
    let r := logout st env.signOutError
    { state := { r.1 with isLoading := false }
      logoutInvoked := true
      providerQueried := pq
      parentInsertAttempted := ia
      propagated := r.2 }
  else
    match env.fallbackGetUser with
    | .ok u e =>
      match u, e with
      | some su, none =>
        -- lines 248–258: fallback user from metadata
        { state := { st with
            user := some (newUserFrom userId su (jsOr su.meta_role "parent"))
            isLoading := false }
          logoutInvoked := logoutAlready
          providerQueried := pq
          parentInsertAttempted := ia
          propagated := none }
      | _, _ =>
        -- lines 259–269: last-resort minimal user
        { state := { st with
            user := some (lastResortUser userId), isLoading := false }
          logoutInvoked := logoutAlready
          providerQueried := pq
          parentInsertAttempted := ia
          propagated := none }
    | .throws =>
      -- lines 270–280: emergency minimal user
      { state := { st with
          user := some (lastResortUser userId), isLoading := false }
        logoutInvoked := logoutAlready
        providerQueried := pq
        parentInsertAttempted := ia
        propagated := none }

/-- `loadUserProfile` (AuthContext.tsx lines 95–284), the primary revision
of the profile resolver.  It sets the loading flag, checks configuration
(line 101), calls `supabase.auth.getUser()` (line 111) and handles
session-invalidity errors by forced logout (lines 113–126), reads the role
from the session metadata defaulting to `parent` (line 133), queries the
provider records only when that role is `provider` (lines 137–175) —
building a provider user on success and swallowing lookup errors — runs
the parent-profile creation block only when the role is `parent`
(lines 181–217, side effects only), and otherwise builds a metadata-derived
user (lines 219–229).  Thrown errors reach `loadCatch`; the `finally`
clears the loading flag on every path. -/
def loadUserProfile (env : Env) (userId : String) (st : AuthState) :
    LoadResult :=
  let st := { st with isLoading := true }
  if env.configured = false then
    -- line 103: throw new Error('Supabase configuration missing')
    loadCatch env userId st "Supabase configuration missing" false false false
  else
    match env.getUserError with
    | some msg =>
      if sessionInvalidMsg msg then
        -- lines 117–123: invalid session → forced logout, return
        match env.signOutError with
        | none =>
          { state := { (logout st none).1 with isLoading := false }
            logoutInvoked := true
            providerQueried := false
            parentInsertAttempted := false
            propagated := none }
        | some m =>
          -- the logout's sign-out call rejected inside the try block:
          -- the rejection is caught by the catch at line 232
          loadCatch env userId (logout st (some m)).1 m true false false
      else
        -- line 125: throw userError
        loadCatch env userId st msg false false false
    | none =>
      match env.getUserUser with
      | none =>
        -- line 130: throw new Error('No user data found')
        loadCatch env userId st "No user data found" false false false
      | some su =>
        let userRole := jsOr su.meta_role "parent"
        if userRole = "provider" then
          match env.providerLookup with
          | .found p =>
            -- lines 143–166: provider user, return
            { state := { st with
                user := some (providerToUser userId p), isLoading := false }
              logoutInvoked := false
              providerQueried := true
              parentInsertAttempted := false
              propagated := none }
          | .notFound =>
            -- lines 167–170: fall through to the basic user
            { state := { st with
                user := some (newUserFrom userId su userRole)
                isLoading := false }
              logoutInvoked := false
              providerQueried := true
              parentInsertAttempted := false
              propagated := none }
          | .err _ =>
            -- lines 171–174: lookup error swallowed, fall through
            { state := { st with
                user := some (newUserFrom userId su userRole)
                isLoading := false }
              logoutInvoked := false
              providerQueried := true
              parentInsertAttempted := false
              propagated := none }
        else
          -- lines 181–217: parent-profile creation (side effects only,
          -- all errors swallowed), then lines 219–229
          { state := { st with
              user := some (newUserFrom userId su userRole)
              isLoading := false }
            logoutInvoked := false
            providerQueried := false
            parentInsertAttempted :=
              userRole = "parent" && env.profileCheckErrCode = some "PGRST116"
            propagated := none }

/-- What a route guard renders. -/
inductive RenderResult where
  | loading
  | redirect (target : String)
  | children
deriving Repr, DecidableEq

/-- `ProtectedRoute` (App.tsx lines 14–33): spinner while loading, redirect
to `/` when no user is resolved, otherwise the children. -/
def ProtectedRoute (user : Option User) (isLoading : Bool) : RenderResult :=
  if isLoading then .loading
  else
    match user with
    | none => .redirect "/"
    | some _ => .children

/-- `ProviderRoute` (App.tsx lines 35–54): spinner while loading, redirect
to `/provider/login` unless a user with role `provider` is resolved. -/
def ProviderRoute (user : Option User) (isLoading : Bool) : RenderResult :=
  if isLoading then .loading
  else
    match user with
    | none => .redirect "/provider/login"
    | some u => if u.role != "provider" then .redirect "/provider/login" else .children

/-- The session input of the mount-time bootstrap: the current session's
user id, if a session exists. -/
structure BootEnv where
  session : Option String
deriving Repr, DecidableEq

/-- Outcome of the mount-time bootstrap effect: the state after its
synchronous part, whether the session was fetched from the auth
collaborator, and the user id a profile resolution was triggered for. -/
structure BootResult where
  state : AuthState
  sessionFetched : Bool
  resolutionRequestedFor : Option String
deriving Repr, DecidableEq

/-- The non-demo part of the bootstrap (AuthContext.tsx lines 68–76):
fetch the session; with a session present, record the identity and trigger
profile resolution; otherwise finish loading.  (The hash-based email
confirmation redirect of lines 50–66 depends on `window.location` and is
outside the claims considered here.) -/
def bootNormal (env : BootEnv) (st : AuthState) : BootResult :=
  match env.session with
  | some uid =>
    { state := { st with supabaseUserId := some uid }
      sessionFetched := true
      resolutionRequestedFor := some uid }
  | none =>
    { state := { st with isLoading := false }
      sessionFetched := true
      resolutionRequestedFor := none }

/-- The mount effect of `AuthProvider` (AuthContext.tsx lines 34–47 and
68–76): if local storage holds a `demoUser` entry that parses, set the
user from it, finish loading and return before any session retrieval; if
it fails to parse, remove it and proceed with the normal bootstrap;
otherwise proceed with the normal bootstrap. -/
def authBootstrap (env : BootEnv) (st : AuthState) : BootResult :=
  match st.storage.demoUser with
  | some (.valid u) =>
    { state := { st with user := some u, isLoading := false }
      sessionFetched := false
      resolutionRequestedFor := none }
  | some .invalid =>
    bootNormal env { st with storage := { st.storage with demoUser := none } }
  | none => bootNormal env st

/-- `setUserLocation` (AuthContext.tsx lines 355–360): replace the resolved
user's location when a user exists; otherwise do nothing. -/
def setUserLocation (st : AuthState) (loc : Option Location) : AuthState :=
  match st.user with
  | none => st
  | some u => { st with user := some { u with location := loc } }

/-! ## Concrete sample data (used by witnesses and counterexamples) -/

/-- An auth state with no resolved user and some admin/demo flags set. -/
def st0 : AuthState :=
  { user := none
    isLoading := false
    supabaseUserId := none
    storage := { demoUser := none, adminAuth := some "1", adminUser := some "admin" }
    redirect := none }

/-- A concrete provider record with business name `Harmony Music`. -/
def harmonyRecord : ProviderRecord :=
  { owner_name := "Asha Rao"
    email := "asha@harmony.example"
    phone := "9000000001"
    business_name := "Harmony Music"
    whatsapp := some "9000000001"
    website := none
    is_verified := true
    city := "Pune"
    area := "Kothrud"
    pincode := "411038"
    latitude := some 18
    longitude := some 73 }

/-- A session identity whose metadata role is `provider`. -/
def suProvider : SessUser :=
  { meta_role := some "provider", meta_name := some "Asha", email := some "asha@harmony.example" }

/-- A session identity with no role metadata. -/
def suNoRole : SessUser :=
  { meta_role := none, meta_name := some "Pat", email := some "pat@example.com" }

/-- A session identity whose metadata role is the unexpected string
`admin`. -/
def suAdmin : SessUser :=
  { meta_role := some "admin", meta_name := some "Root", email := some "root@example.com" }

/-- Environment: configured, session valid, metadata role `provider`, and
the provider lookup finds the Harmony Music record. -/
def envHarmony : Env :=
  { configured := true
    getUserError := none
    getUserUser := some suProvider
    providerLookup := .found harmonyRecord
    profileCheckErrCode := none
    fallbackGetUser := .ok none none
    signOutError := none }

/-- Environment: configured, session valid, no role metadata, no provider
record. -/
def envNoRoleNoRecord : Env :=
  { configured := true
    getUserError := none
    getUserUser := some suNoRole
    providerLookup := .notFound
    profileCheckErrCode := some "PGRST116"
    fallbackGetUser := .ok none none
    signOutError := none }

/-- Environment: the first `getUser` call fails with an invalid-refresh-token
message. -/
def envInvalidSession : Env :=
  { configured := true
    getUserError := some "Invalid Refresh Token: token expired"
    getUserUser := none
    providerLookup := .notFound
    profileCheckErrCode := none
    fallbackGetUser := .ok none none
    signOutError := none }

/-- Environment: metadata role `provider` but the provider lookup throws a
network error. -/
def envLookupThrows : Env :=
  { configured := true
    getUserError := none
    getUserUser := some suProvider
    providerLookup := .err "TypeError: Failed to fetch"
    profileCheckErrCode := none
    fallbackGetUser := .ok none none
    signOutError := none }

/-- Environment: session valid but the metadata role is the unexpected
string `admin`. -/
def envAdminRole : Env :=
  { configured := true
    getUserError := none
    getUserUser := some suAdmin
    providerLookup := .notFound
    profileCheckErrCode := none
    fallbackGetUser := .ok none none
    signOutError := none }

/-- Environment: no role metadata, yet a provider record exists for the
identity. -/
def envRecordButNoRoleMeta : Env :=
  { configured := true
    getUserError := none
    getUserUser := some suNoRole
    providerLookup := .found harmonyRecord
    profileCheckErrCode := none
    fallbackGetUser := .ok none none
    signOutError := none }

/-- A concrete demo user value for the bootstrap scenarios. -/
def demoUser0 : User :=
  { _id := "demo-1"
    id := some "demo-1"
    name := "Demo User"
    email := "demo@example.com"
    phone := none
    role := "parent"
    businessName := none
    whatsapp := none
    website := none
    isVerified := none
    location := none
    children := some [] }

/-- The session metadata role, if a session user is present, is absent,
empty, `parent` or `provider` — exactly the values under which
`user_metadata?.role || 'parent'` yields one of the two expected roles. -/
def metaRoleOk : Option SessUser → Prop
  | none => True
  | some su =>
      su.meta_role = none ∨ su.meta_role = some "" ∨
      su.meta_role = some "parent" ∨ su.meta_role = some "provider"

/-- `metaRoleOk` for the user returned by the catch-block `getUser` call. -/
def fallbackRoleOk (env : Env) : Prop :=
  match env.fallbackGetUser with
  | .throws => True
  | .ok u _ => metaRoleOk u

/-! ## Helper lemmas -/

/-- Under `metaRoleOk`, the `||`-defaulted role is `parent` or
`provider`. -/
lemma jsOr_role (su : SessUser) (h : metaRoleOk (some su)) :
    jsOr su.meta_role "parent" = "parent" ∨
    jsOr su.meta_role "parent" = "provider" := by
  rcases h with h | h | h | h <;> simp [jsOr, h]

/-- The catch block always ends with the loading flag cleared (the
`finally` of lines 281–283 runs on every path). -/
lemma loadCatch_isLoading (env : Env) (userId : String) (st : AuthState)
    (msg : String) (la pq ia : Bool) :
    (loadCatch env userId st msg la pq ia).state.isLoading = false := by
  unfold loadCatch
  by_cases h : sessionInvalidMsg msg = true
  · simp [h]
  · rcases hfb : env.fallbackGetUser with _ | ⟨u, e⟩
    · simp [h, hfb]
    · rcases u with _ | su <;> rcases e with _ | m <;> simp [h, hfb]

/-- The catch block never revokes an already-performed logout. -/
lemma loadCatch_logout_mono (env : Env) (userId : String) (st : AuthState)
    (msg : String) (pq ia : Bool) :
    (loadCatch env userId st msg true pq ia).logoutInvoked = true := by
  unfold loadCatch
  by_cases h : sessionInvalidMsg msg = true
  · simp [h]
  · rcases hfb : env.fallbackGetUser with _ | ⟨u, e⟩
    · simp [h, hfb]
    · rcases u with _ | su <;> rcases e with _ | m <;> simp [h, hfb]

/-- The catch block does not perform a provider lookup: it propagates the
flag it is given. -/
lemma loadCatch_providerQueried (env : Env) (userId : String) (st : AuthState)
    (msg : String) (la pq ia : Bool) :
    (loadCatch env userId st msg la pq ia).providerQueried = pq := by
  unfold loadCatch
  by_cases h : sessionInvalidMsg msg = true
  · simp [h]
  · rcases hfb : env.fallbackGetUser with _ | ⟨u, e⟩
    · simp [h, hfb]
    · rcases u with _ | su <;> rcases e with _ | m <;> simp [h, hfb]

/-- Any user the catch block sets has role `parent` or `provider`,
provided the fallback `getUser` metadata role is well-formed. -/
lemma loadCatch_role_ok (env : Env) (userId : String) (st : AuthState)
    (msg : String) (la pq ia : Bool) (hfb : fallbackRoleOk env) :
    ∀ u, (loadCatch env userId st msg la pq ia).state.user = some u →
      u.role = "parent" ∨ u.role = "provider" := by
  intro u hu
  unfold loadCatch at hu
  by_cases h : sessionInvalidMsg msg = true
  · rcases hso : env.signOutError with _ | m <;>
      simp [h, logout, hso] at hu
  · rcases hfb' : env.fallbackGetUser with _ | ⟨v, e⟩
    · simp [h, hfb'] at hu
      left
      simp [← hu, lastResortUser]
    · unfold fallbackRoleOk at hfb
      rw [hfb'] at hfb
      rcases v with _ | su <;> rcases e with _ | m <;> simp [h, hfb'] at hu
      · left
        simp [← hu, lastResortUser]
      · left
        simp [← hu, lastResortUser]
      · rcases jsOr_role su hfb with hp | hp
        · left
          simp [← hu, newUserFrom, hp]
        · right
          simp [← hu, newUserFrom, hp]
      · left
        simp [← hu, lastResortUser]

/-! ## Claim theorems -/

/-- C1: whenever the provider-record lookup is performed and returns a
record, the resolved user has role `provider` and carries the record's
business fields (`name` from `owner_name`, `email`, `phone`, `businessName`
from `business_name`, `isVerified` from `is_verified`, and the location's
city/area/pincode from the record). -/
theorem provider_record_projection
    (env : Env) (userId : String) (st : AuthState) (su : SessUser)
    (p : ProviderRecord)
    (hc : env.configured = true)
    (he : env.getUserError = none)
    (hu : env.getUserUser = some su)
    (hr : jsOr su.meta_role "parent" = "provider")
    (hl : env.providerLookup = .found p) :
    ∃ u, (loadUserProfile env userId st).state.user = some u ∧
      u.role = "provider" ∧
      u.businessName = some p.business_name ∧
      u.name = p.owner_name ∧
      u.email = p.email ∧
      u.phone = some p.phone ∧
      u.isVerified = some p.is_verified ∧
      ∃ loc, u.location = some loc ∧
        loc.city = p.city ∧ loc.area = p.area ∧ loc.pincode = p.pincode := by
  refine ⟨providerToUser userId p, ?_, rfl, rfl, rfl, rfl, rfl, rfl,
    ⟨_, rfl, rfl, rfl, rfl⟩⟩
  simp [loadUserProfile, hc, he, hu, hr, hl]

/-- C1 witness: the Harmony Music scenario, resolved concretely. -/
theorem provider_record_projection_witness :
    ∃ u, (loadUserProfile envHarmony "uid-1" st0).state.user = some u ∧
      u.role = "provider" ∧ u.businessName = some "Harmony Music" ∧
      u.name = "Asha Rao" ∧ u.isVerified = some true := by
  obtain ⟨u, h1, h2, h3, h4, -, -, h5, -⟩ :=
    provider_record_projection envHarmony "uid-1" st0 suProvider harmonyRecord
      rfl rfl rfl (by decide) rfl
  exact ⟨u, h1, h2, h3, h4, h5⟩

/-- C2: whenever the provider-record lookup finds no record, the resolved
user's role is the session metadata role (with JavaScript `||`-defaulting
to `parent`), and the children list is empty; in particular with no role
metadata the role is `parent`. -/
theorem no_provider_record_role_fallback
    (env : Env) (userId : String) (st : AuthState) (su : SessUser)
    (hc : env.configured = true)
    (he : env.getUserError = none)
    (hu : env.getUserUser = some su)
    (hl : env.providerLookup = .notFound) :
    ∃ u, (loadUserProfile env userId st).state.user = some u ∧
      u.role = jsOr su.meta_role "parent" ∧
      u.children = some [] ∧
      (su.meta_role = none → u.role = "parent") := by
  refine ⟨newUserFrom userId su (jsOr su.meta_role "parent"), ?_, rfl, rfl, ?_⟩
  · by_cases hr : jsOr su.meta_role "parent" = "provider"
    · simp [loadUserProfile, hc, he, hu, hr, hl]
    · simp [loadUserProfile, hc, he, hu, hr, hl]
  · intro h
    simp [newUserFrom, jsOr, h]

/-- C2 witness: no provider record and no role metadata, resolved
concretely to a parent user with an empty children list. -/
theorem no_provider_record_role_fallback_witness :
    ∃ u, (loadUserProfile envNoRoleNoRecord "uid-2" st0).state.user = some u ∧
      u.role = "parent" ∧ u.children = some [] := by
  obtain ⟨u, h1, -, h3, h4⟩ :=
    no_provider_record_role_fallback envNoRoleNoRecord "uid-2" st0 suNoRole
      rfl rfl rfl rfl
  exact ⟨u, h1, h4 rfl, h3⟩

/-- C5: `logout` sets the local user to `null` and removes the
`demoUser`, `adminAuth` and `adminUser` local-storage keys, on both the
branch where the backend sign-out succeeds and the branch where it
rejects. -/
theorem logout_clears_local_state (st : AuthState) (signOutErr : Option String) :
    ((logout st signOutErr).1).user = none ∧
    ((logout st signOutErr).1).storage.demoUser = none ∧
    ((logout st signOutErr).1).storage.adminAuth = none ∧
    ((logout st signOutErr).1).storage.adminUser = none := by
  rcases signOutErr with _ | m <;> exact ⟨rfl, rfl, rfl, rfl⟩

/-- C10: `setUserLocation` is the identity when no user is resolved, and
otherwise replaces exactly the user's location, leaving every other field
of the user and of the state unchanged. -/
theorem setUserLocation_frame (st : AuthState) (loc : Option Location) :
    (st.user = none → setUserLocation st loc = st) ∧
    (∀ u, st.user = some u →
      (setUserLocation st loc).user = some { u with location := loc } ∧
      (setUserLocation st loc).isLoading = st.isLoading ∧
      (setUserLocation st loc).supabaseUserId = st.supabaseUserId ∧
      (setUserLocation st loc).storage = st.storage ∧
      (setUserLocation st loc).redirect = st.redirect) := by
  constructor
  · intro h
    simp [setUserLocation, h]
  · intro u h
    simp [setUserLocation, h]

/-- C10 witness: a concrete state with a resolved user, relocated. -/
theorem setUserLocation_frame_witness :
    (setUserLocation { st0 with user := some demoUser0 }
        (some { city := "Pune", area := "Aundh", pincode := "411007", coordinates := none })).user =
      some { demoUser0 with
        location := some { city := "Pune", area := "Aundh", pincode := "411007", coordinates := none } } ∧
    (setUserLocation st0 (some { city := "Pune", area := "Aundh", pincode := "411007", coordinates := none })) = st0 := by
  constructor
  · exact ((setUserLocation_frame { st0 with user := some demoUser0 }
      (some { city := "Pune", area := "Aundh", pincode := "411007", coordinates := none })).2
      demoUser0 rfl).1
  · exact (setUserLocation_frame st0
      (some { city := "Pune", area := "Aundh", pincode := "411007", coordinates := none })).1 rfl

/-- C3: when the `getUser` call fails with a session-invalidity message
(invalid refresh token, missing refresh token, or missing auth session),
the resolver performs a forced logout and the loading flag is false when
the run completes — on every branch, including the one where the sign-out
call inside `logout` itself rejects.  The resolver is a single
terminating pass, so no retry occurs. -/
theorem session_invalid_forces_logout
    (env : Env) (userId : String) (st : AuthState) (msg : String)
    (hc : env.configured = true)
    (he : env.getUserError = some msg)
    (hm : sessionInvalidMsg msg = true) :
    (loadUserProfile env userId st).logoutInvoked = true ∧
    (loadUserProfile env userId st).state.isLoading = false := by
  rcases hso : env.signOutError with _ | m
  · constructor <;> simp [loadUserProfile, hc, he, hm, hso]
  · have hgoal : loadUserProfile env userId st =
        loadCatch env userId
          (logout { st with isLoading := true } (some m)).1 m true false false := by
      simp [loadUserProfile, hc, he, hm, hso]
    rw [hgoal]
    exact ⟨loadCatch_logout_mono _ _ _ _ _ _, loadCatch_isLoading _ _ _ _ _ _ _⟩

/-- C3 witness: a concrete invalid-refresh-token failure. -/
theorem session_invalid_forces_logout_witness :
    (loadUserProfile envInvalidSession "uid-3" st0).logoutInvoked = true ∧
    (loadUserProfile envInvalidSession "uid-3" st0).state.isLoading = false :=
  session_invalid_forces_logout envInvalidSession "uid-3" st0
    "Invalid Refresh Token: token expired" rfl rfl (by decide)

/-- C4: when the provider-record lookup throws an error other than the
expected absence condition, the resolver still produces a user (the
metadata-derived fallback), the loading flag is false when the run
completes, and the run itself rejects with nothing. -/
theorem provider_lookup_error_degrades
    (env : Env) (userId : String) (st : AuthState) (su : SessUser) (m : String)
    (hc : env.configured = true)
    (he : env.getUserError = none)
    (hu : env.getUserUser = some su)
    (hl : env.providerLookup = .err m) :
    (loadUserProfile env userId st).state.user =
      some (newUserFrom userId su (jsOr su.meta_role "parent")) ∧
    (loadUserProfile env userId st).state.isLoading = false ∧
    (loadUserProfile env userId st).propagated = none := by
  by_cases hr : jsOr su.meta_role "parent" = "provider"
  · refine ⟨?_, ?_, ?_⟩ <;> simp [loadUserProfile, hc, he, hu, hr, hl]
  · refine ⟨?_, ?_, ?_⟩ <;> simp [loadUserProfile, hc, he, hu, hr, hl]

/-- C4 witness: a concrete failed-fetch lookup error, degraded to a
fallback provider-role user with the loading flag cleared. -/
theorem provider_lookup_error_degrades_witness :
    (loadUserProfile envLookupThrows "uid-4" st0).state.user =
      some (newUserFrom "uid-4" suProvider "provider") ∧
    (loadUserProfile envLookupThrows "uid-4" st0).state.isLoading = false ∧
    (loadUserProfile envLookupThrows "uid-4" st0).propagated = none := by
  have h := provider_lookup_error_degrades envLookupThrows "uid-4" st0 suProvider
    "TypeError: Failed to fetch" rfl rfl rfl rfl
  simpa [jsOr, suProvider] using h

/-- C8: the route guards are pure functions of the resolved user and the
loading flag: `ProtectedRoute` renders its children exactly when loading
is false and a user is resolved, `ProviderRoute` exactly when loading is
false and the resolved user's role is `provider`; while loading both show
the loading indicator, and in the remaining cases they redirect to `/`
and `/provider/login` respectively. -/
theorem route_guards_pure (u : Option User) (l : Bool) :
    (ProtectedRoute u l = .children ↔ l = false ∧ u ≠ none) ∧
    (ProviderRoute u l = .children ↔
      l = false ∧ ∃ x, u = some x ∧ x.role = "provider") ∧
    (l = true → ProtectedRoute u l = .loading ∧ ProviderRoute u l = .loading) ∧
    (l = false → u = none →
      ProtectedRoute u l = .redirect "/" ∧
      ProviderRoute u l = .redirect "/provider/login") ∧
    (l = false → ∀ x, u = some x → x.role ≠ "provider" →
      ProviderRoute u l = .redirect "/provider/login") := by
  cases l <;> rcases u with _ | x <;>
    simp [ProtectedRoute, ProviderRoute]

/-- C8 witness: the guards evaluated at concrete inputs. -/
theorem route_guards_pure_witness :
    ProtectedRoute (some demoUser0) false = .children ∧
    ProviderRoute (some demoUser0) false = .redirect "/provider/login" ∧
    ProtectedRoute none true = .loading := by
  refine ⟨(route_guards_pure (some demoUser0) false).1.mpr ⟨rfl, by simp⟩,
    (route_guards_pure (some demoUser0) false).2.2.2.2 rfl demoUser0 rfl (by decide),
    ((route_guards_pure none true).2.2.1 rfl).1⟩

/-- C9: if local storage holds a `demoUser` entry that parses, the mount
bootstrap sets the user from it and finishes loading without fetching the
session or requesting a profile resolution; if the entry fails to parse,
it is removed and the normal session bootstrap proceeds. -/
theorem demo_bootstrap (env : BootEnv) (st : AuthState) :
    (∀ u, st.storage.demoUser = some (.valid u) →
      (authBootstrap env st).state.user = some u ∧
      (authBootstrap env st).state.isLoading = false ∧
      (authBootstrap env st).sessionFetched = false ∧
      (authBootstrap env st).resolutionRequestedFor = none) ∧
    (st.storage.demoUser = some .invalid →
      (authBootstrap env st).state.storage.demoUser = none ∧
      (authBootstrap env st).sessionFetched = true) := by
  constructor
  · intro u h
    simp [authBootstrap, h]
  · intro h
    rcases hs : env.session with _ | uid <;>
      simp [authBootstrap, bootNormal, h, hs]

/-- C9 witness: both bootstrap scenarios at concrete states. -/
theorem demo_bootstrap_witness :
    (authBootstrap { session := some "uid-5" }
        { st0 with storage := { st0.storage with demoUser := some (.valid demoUser0) } }).state.user = some demoUser0 ∧
    (authBootstrap { session := some "uid-5" }
        { st0 with storage := { st0.storage with demoUser := some (.valid demoUser0) } }).sessionFetched = false ∧
    (authBootstrap { session := some "uid-5" }
        { st0 with storage := { st0.storage with demoUser := some .invalid } }).state.storage.demoUser = none ∧
    (authBootstrap { session := some "uid-5" }
        { st0 with storage := { st0.storage with demoUser := some .invalid } }).sessionFetched = true := by
  have h1 := (demo_bootstrap { session := some "uid-5" }
    { st0 with storage := { st0.storage with demoUser := some (.valid demoUser0) } }).1 demoUser0 rfl
  have h2 := (demo_bootstrap { session := some "uid-5" }
    { st0 with storage := { st0.storage with demoUser := some .invalid } }).2 rfl
  exact ⟨h1.1, h1.2.2.1, h2.1, h2.2⟩

/-- C6 counterexample: with session metadata role `admin` the resolver
copies that string into the resolved user unvalidated, so the resolved
role is neither `parent` nor `provider`. -/
theorem role_values_counterexample :
    ¬ (∀ u, (loadUserProfile envAdminRole "uid-7" st0).state.user = some u →
        u.role = "parent" ∨ u.role = "provider") := by
  intro h
  have hu : (loadUserProfile envAdminRole "uid-7" st0).state.user =
      some (newUserFrom "uid-7" suAdmin "admin") := rfl
  rcases h _ hu with h1 | h1 <;> exact absurd h1 (by decide)

/-- C6 amended: after a resolution completes, any resolved user's role is
defined, and it is `parent` or `provider` provided the session metadata
role — both in the primary `getUser` result and in the catch-block
fallback — is absent, empty, or one of those two values; the role is
copied from the metadata unvalidated, so other metadata strings leak
through unchanged. -/
theorem role_values_amended (env : Env) (userId : String) (st : AuthState)
    (h1 : metaRoleOk env.getUserUser) (h2 : fallbackRoleOk env) :
    ∀ u, (loadUserProfile env userId st).state.user = some u →
      u.role = "parent" ∨ u.role = "provider" := by
  obtain ⟨c, gue, guu, pl, pc, fb, so⟩ := env
  intro u hu
  cases c
  · exact loadCatch_role_ok _ userId _ _ false false false h2 u
      (by simpa [loadUserProfile] using hu)
  · rcases gue with _ | msg
    · rcases guu with _ | su
      · exact loadCatch_role_ok _ userId _ _ false false false h2 u
          (by simpa [loadUserProfile] using hu)
      · by_cases hr : jsOr su.meta_role "parent" = "provider"
        · rcases pl with p | _ | m <;> simp [loadUserProfile, hr] at hu
          · right
            simp [← hu, providerToUser]
          · right
            simp [← hu, newUserFrom, hr]
          · right
            simp [← hu, newUserFrom, hr]
        · simp [loadUserProfile, hr] at hu
          rcases jsOr_role su h1 with hp | hp
          · left
            simp [← hu, newUserFrom, hp]
          · exact absurd hp hr
    · by_cases hm : sessionInvalidMsg msg = true
      · rcases so with _ | m
        · simp [loadUserProfile, hm, logout] at hu
        · exact loadCatch_role_ok _ userId _ _ true false false h2 u
            (by simpa [loadUserProfile, hm] using hu)
      · exact loadCatch_role_ok _ userId _ _ false false false h2 u
          (by simpa [loadUserProfile, hm] using hu)

/-- C6 amended witness: a concrete resolution with no role metadata
yields role `parent`. -/
theorem role_values_amended_witness :
    (loadUserProfile envNoRoleNoRecord "uid-6" st0).state.user =
      some (newUserFrom "uid-6" suNoRole "parent") ∧
    ((newUserFrom "uid-6" suNoRole "parent").role = "parent" ∨
     (newUserFrom "uid-6" suNoRole "parent").role = "provider") := by
  have h := role_values_amended envNoRoleNoRecord "uid-6" st0 (Or.inl rfl) trivial
    (newUserFrom "uid-6" suNoRole "parent") rfl
  exact ⟨rfl, h⟩

/-- C7 counterexample: the resolver does not query provider storage first.
With an identity that has no role metadata but does have a provider
record, the lookup is never performed, the role is derived from the
metadata (defaulting to `parent`), and the resolver never sees the
record. -/
theorem provider_first_order_counterexample :
    (¬ (∀ (env : Env) (userId : String) (st : AuthState),
        env.configured = true → env.getUserError = none →
        env.getUserUser.isSome = true →
        (loadUserProfile env userId st).providerQueried = true)) ∧
    (loadUserProfile envRecordButNoRoleMeta "uid-8" st0).providerQueried = false ∧
    envRecordButNoRoleMeta.providerLookup = .found harmonyRecord ∧
    (loadUserProfile envRecordButNoRoleMeta "uid-8" st0).state.user =
      some (newUserFrom "uid-8" suNoRole "parent") := by
  refine ⟨?_, rfl, rfl, rfl⟩
  intro h
  have hq := h envRecordButNoRoleMeta "uid-8" st0 rfl rfl rfl
  exact absurd hq (by decide)

/-- C7 amended: the resolver reads the session metadata first, and the
provider-record lookup is performed exactly when the session is
configured, the `getUser` call succeeds with a user, and that user's
`||`-defaulted metadata role is `provider`. -/
theorem metadata_first_order_amended (env : Env) (userId : String)
    (st : AuthState) :
    (loadUserProfile env userId st).providerQueried = true ↔
      (env.configured = true ∧ env.getUserError = none ∧
        ∃ su, env.getUserUser = some su ∧
          jsOr su.meta_role "parent" = "provider") := by
  obtain ⟨c, gue, guu, pl, pc, fb, so⟩ := env
  cases c
  · simp [loadUserProfile, loadCatch_providerQueried]
  · rcases gue with _ | msg
    · rcases guu with _ | su
      · simp [loadUserProfile, loadCatch_providerQueried]
      · by_cases hr : jsOr su.meta_role "parent" = "provider"
        · rcases pl with p | _ | m <;> simp [loadUserProfile, hr]
        · simp [loadUserProfile, hr]
    · by_cases hm : sessionInvalidMsg msg = true
      · rcases so with _ | m <;>
          simp [loadUserProfile, hm, loadCatch_providerQueried]
      · simp [loadUserProfile, hm, loadCatch_providerQueried]

end BrightRoots
